import Mathlib

/-!
Verification of the core logic of the gemini-desktop application
(src-tauri/src/utils.rs, src-tauri/src/proxy.rs,
src-tauri/src/commands/webview.rs) against its specification.

The Rust code is shallowly embedded:

* 64-bit floats are modelled by `F64`: either NaN, a signed infinity, or a
  finite rational value.  Multiplication of finite values is exact rational
  multiplication (IEEE rounding of finite products is not modelled); the
  special values follow IEEE 754 sign and NaN-propagation rules.
* `u32` values are modelled as `Nat` (callers supply values below 2^32);
  the Rust saturating float-to-integer cast and the wrapping
  integer-to-integer cast are modelled explicitly.
* The proxy handler is modelled as a function of the outcome of its single
  upstream fetch; a `none` result models a Rust panic.
-/

namespace GeminiDesktop

/-- Model of a Rust `f64` value: NaN, a signed infinity (`neg = true` for
negative infinity), or a finite value represented exactly as a rational. -/
inductive F64 where
  | nan : F64
  | inf : Bool → F64
  | finite : ℚ → F64
deriving DecidableEq, Repr

/-- IEEE-754 multiplication on `F64`, with exact arithmetic on the finite
values (rounding and overflow of finite products are not modelled):
NaN propagates, infinity times zero is NaN, infinity times a nonzero value
is an infinity with the product sign. -/
def F64.mul : F64 → F64 → F64
  | .nan, _ => .nan
  | _, .nan => .nan
  | .inf s, .inf t => .inf (xor s t)
  | .inf s, .finite q => if q = 0 then .nan else .inf (xor s (decide (q < 0)))
  | .finite q, .inf t => if q = 0 then .nan else .inf (xor (decide (q < 0)) t)
  | .finite p, .finite q => .finite (p * q)

/-- Model of the Rust cast `x as u32` for `x : f64` (Rust 1.45+ semantics):
truncation toward zero, saturating at the bounds of `u32`, with NaN mapped
to 0.  For a non-negative finite value this is `min ⌊x⌋ (2^32 - 1)`. -/
def f64_as_u32 : F64 → ℕ
  | .nan => 0
  | .inf s => if s then 0 else 2 ^ 32 - 1
  | .finite q => if q < 0 then 0 else min (⌊q⌋.toNat) (2 ^ 32 - 1)

/-- Model of the Rust cast `n as i32` for `n : u32`: two's-complement
wraparound at 2^31. -/
def u32_as_i32 (n : ℕ) : ℤ :=
  if n < 2 ^ 31 then (n : ℤ) else (n : ℤ) - 2 ^ 32

/-- `tauri::PhysicalPosition<i32>`. -/
structure PhysicalPosition where
  x : ℤ
  y : ℤ
deriving DecidableEq, Repr

/-- `tauri::PhysicalSize<u32>`. -/
structure PhysicalSize where
  width : ℕ
  height : ℕ
deriving DecidableEq, Repr

/-- `tauri::Position`; the code under verification only constructs the
`Physical` variant, so only it is modelled. -/
inductive Position where
  | Physical : PhysicalPosition → Position
deriving DecidableEq, Repr

/-- `tauri::Size`; the code under verification only constructs the
`Physical` variant, so only it is modelled. -/
inductive Size where
  | Physical : PhysicalSize → Size
deriving DecidableEq, Repr

/-- `tauri::Rect`. -/
structure Rect where
  position : Position
  size : Size
deriving DecidableEq, Repr

/-- The x coordinate of a rectangle's (physical) position. -/
def Rect.posX : Rect → ℤ
  | ⟨.Physical p, _⟩ => p.x

/-- The y coordinate of a rectangle's (physical) position. -/
def Rect.posY : Rect → ℤ
  | ⟨.Physical p, _⟩ => p.y

/-- The width of a rectangle's (physical) size. -/
def Rect.width : Rect → ℕ
  | ⟨_, .Physical s⟩ => s.width

/-- The height of a rectangle's (physical) size. -/
def Rect.height : Rect → ℕ
  | ⟨_, .Physical s⟩ => s.height

/-- Embedding of `calculate_webview_bounds` from src-tauri/src/utils.rs:

```
let titlebar_height_phys = (titlebar_height * scale_factor) as u32;
let width = window_width;
let height = if window_height > titlebar_height_phys
             { window_height - titlebar_height_phys } else { 0 };
Rect { position: Position::Physical(PhysicalPosition {
         x: 0, y: titlebar_height_phys as i32 }),
       size: Size::Physical(PhysicalSize { width, height }) }
```

`window_width` and `window_height` are `u32` (values below 2^32). -/
def calculate_webview_bounds (window_width window_height : ℕ)
    (scale_factor titlebar_height : F64) : Rect :=
  let titlebar_height_phys : ℕ := f64_as_u32 (F64.mul titlebar_height scale_factor)
  let width := window_width
  let height := if window_height > titlebar_height_phys then
    window_height - titlebar_height_phys
  else
    0
  { position := Position.Physical { x := 0, y := u32_as_i32 titlebar_height_phys },
    size := Size.Physical { width := width, height := height } }

/-- The header names stripped by the proxy (constant HEADERS_TO_STRIP in
src-tauri/src/proxy.rs). -/
def HEADERS_TO_STRIP : List String :=
  ["x-frame-options", "content-security-policy", "x-content-type-options"]

/-- Constant GEMINI_BASE_URL in src-tauri/src/proxy.rs. -/
def GEMINI_BASE_URL : String := "https://gemini.google.com"

/-- ASCII lower-casing of a string, used to model the case-insensitive
header-name matching of the HTTP header map. -/
def asciiLower (s : String) : String :=
  (s.toList.map fun c =>
    if 'A' ≤ c ∧ c ≤ 'Z' then Char.ofNat (c.toNat + 32) else c).asString

/-- An upstream HTTP response as delivered by the blocking HTTP client:
status code, header list (name-value pairs; values are raw byte
sequences, since HTTP header values need not be valid ASCII text), and
body bytes. -/
structure UpstreamResponse where
  status : ℕ
  headers : List (String × List ℕ)
  body : List ℕ
deriving DecidableEq, Repr

/-- Model of the header-map lookup `response.headers().get(name)`: header
names are matched case-insensitively (the HTTP library canonicalizes
names to lower case), and the first matching value is returned. -/
def headerGet (headers : List (String × List ℕ)) (name : String) :
    Option (List ℕ) :=
  (headers.find? fun h => asciiLower h.1 = name).map Prod.snd

/-- Model of `http::HeaderValue::to_str`: succeeds exactly when every byte
is visible ASCII (32 ≤ b < 127) or horizontal tab (9), returning the
corresponding string. -/
def headerValueToStr (v : List ℕ) : Option String :=
  if v.all fun b => (32 ≤ b && b < 127) || b == 9 then
    some ((v.map Char.ofNat).asString)
  else
    none

/-- The UTF-8 bytes of a string (used for the ASCII error-message bodies,
where each character is one byte). -/
def strBytes (s : String) : List ℕ :=
  s.toList.map Char.toNat

/-- Validity of a status code for `http::Response::builder().status(..)`
(`http::StatusCode::from_u16` accepts exactly 100..=999). -/
def validStatus (status : ℕ) : Bool :=
  100 ≤ status && status < 1000

/-- Validity of a string as an `http::HeaderValue`
(`HeaderValue::from_bytes` over the UTF-8 encoding: every byte must be
at least 32 and not 127, or a horizontal tab; a character with code point
at least 128 encodes to bytes that are all at least 128, hence valid). -/
def validHeaderValueStr (s : String) : Bool :=
  s.toList.all fun c =>
    128 ≤ c.toNat || (32 ≤ c.toNat && c.toNat != 127) || c.toNat == 9

/-- A response produced by the proxy handler: status, header list
(names paired with string values) and body bytes. -/
structure ProxyResponse where
  status : ℕ
  headers : List (String × String)
  body : List ℕ
deriving DecidableEq, Repr

/-- Model of
`Response::builder().status(status).header(CONTENT_TYPE, value).body(body)`:
the build succeeds exactly when the status code and the content-type
header value are valid, and the only header of the result is
content-type. -/
def buildResponse (status : ℕ) (contentType : String) (body : List ℕ) :
    Option ProxyResponse :=
  if validStatus status && validHeaderValueStr contentType then
    some { status := status, headers := [("content-type", contentType)], body := body }
  else
    none

/-- Embedding of `error_response` from src-tauri/src/proxy.rs:

```
Response::builder().status(status)
  .header(CONTENT_TYPE, HeaderValue::from_static("text/plain"))
  .body(Cow::Owned(message.as_bytes().to_vec())).unwrap()
```

A `none` result models the panic of the final `unwrap`. -/
def error_response (status : ℕ) (message : String) : Option ProxyResponse :=
  buildResponse status "text/plain" (strBytes message)

/-- The outcome of the single upstream fetch performed by the proxy
handler, which is the only external input of `handle_proxy_request`:
construction of the HTTP client can fail, the GET request can fail,
reading the body can fail (after the status and headers were received),
or the fetch succeeds with a full upstream response. -/
inductive FetchOutcome where
  | clientError : FetchOutcome
  | sendError : FetchOutcome
  | bodyReadError : ℕ → List (String × List ℕ) → FetchOutcome
  | success : UpstreamResponse → FetchOutcome
deriving DecidableEq, Repr

/-- Embedding of `handle_proxy_request` from src-tauri/src/proxy.rs as a
function of the fetch outcome (the URL construction at the top of the
function only feeds the fetch and does not affect the response shape):

* client construction failure: `error_response(500, "Internal proxy error")`;
* request failure: `error_response(502, "Failed to fetch from Gemini")`;
* body-read failure: `error_response(500, "Failed to read response")`;
* success: content-type is the upstream content-type header converted by
  `to_str`, defaulting to "text/html" when absent or not convertible, and
  the response is built from the upstream status, that content-type, and
  the upstream body; a build failure falls back to
  `error_response(500, "Response build error")`.

A `none` result models a Rust panic. -/
def handle_proxy_request (outcome : FetchOutcome) : Option ProxyResponse :=
  match outcome with
  | .clientError => error_response 500 "Internal proxy error"
  | .sendError => error_response 502 "Failed to fetch from Gemini"
  | .bodyReadError _ _ => error_response 500 "Failed to read response"
  | .success resp =>
    let content_type : String :=
      ((headerGet resp.headers "content-type").bind headerValueToStr).getD "text/html"
    match buildResponse resp.status content_type resp.body with
    | some r => some r
    | none => error_response 500 "Response build error"

/-- Constant TITLEBAR_HEIGHT in src-tauri/src/constants.rs. -/
def TITLEBAR_HEIGHT : F64 := F64.finite 32

/-- Constant GEMINI_URL in src-tauri/src/constants.rs. -/
def GEMINI_URL : String := "https://gemini.google.com"

/-- Constant MAIN_WINDOW_LABEL in src-tauri/src/constants.rs. -/
def MAIN_WINDOW_LABEL : String := "main"

/-- Constant GEMINI_WEBVIEW_LABEL in src-tauri/src/constants.rs. -/
def GEMINI_WEBVIEW_LABEL : String := "gemini-webview"

/-- Embedding of the `CommandError` enum from src-tauri/src/errors.rs
(error payloads of the underlying library errors are modelled as their
message strings). -/
inductive CommandError where
  | WindowNotFound : String → CommandError
  | TauriError : String → CommandError
  | SerializationError : String → CommandError
  | Internal : String → CommandError
deriving DecidableEq, Repr

/-- Model of `url::Url::parse` as used on the constant GEMINI_URL: parsing
succeeds for an https URL with a nonempty host. -/
def parse_url (s : String) : Except String String :=
  if s.toList.take 8 = ("https://").toList ∧ 8 < s.toList.length then
    .ok s
  else
    .error "relative URL without a base"

/-- The observable state of the Tauri application as seen by
`create_gemini_webview`: the labels of live windows, the existing webviews
(label paired with the bounds they were created with), and the outcomes of
the fallible framework calls made on the main window
(`scale_factor()`, `inner_size()`, `add_child(..)`). -/
structure AppState where
  windows : List String
  webviews : List (String × Rect)
  scaleFactorRes : Except String F64
  innerSizeRes : Except String (ℕ × ℕ)
  addChildRes : Option String
deriving Repr

/-- Embedding of `create_gemini_webview` from
src-tauri/src/commands/webview.rs, returning the command result together
with the successor application state:

1. resolve the main window (`WindowNotFound` on failure);
2. if a webview labelled GEMINI_WEBVIEW_LABEL already exists, return Ok
   without touching the state;
3. query scale factor and inner size (each failure becomes `TauriError`);
4. compute the bounds with `calculate_webview_bounds`;
5. parse GEMINI_URL (failure becomes `Internal`);
6. add the child webview (failure becomes `TauriError`); on success the
   new webview is recorded with its bounds. -/
def create_gemini_webview (app : AppState) :
    Except CommandError Unit × AppState :=
  if MAIN_WINDOW_LABEL ∈ app.windows then
    if app.webviews.any fun v => v.1 = GEMINI_WEBVIEW_LABEL then
      (.ok (), app)
    else
      match app.scaleFactorRes with
      | .error e => (.error (.TauriError e), app)
      | .ok scale_factor =>
        match app.innerSizeRes with
        | .error e => (.error (.TauriError e), app)
        | .ok (width, height) =>
          let bounds := calculate_webview_bounds width height scale_factor TITLEBAR_HEIGHT
          match parse_url GEMINI_URL with
          | .error e => (.error (.Internal ("Invalid URL: " ++ e)), app)
          | .ok _ =>
            match app.addChildRes with
            | some e => (.error (.TauriError e), app)
            | none =>
              (.ok (), { app with
                webviews := app.webviews ++ [(GEMINI_WEBVIEW_LABEL, bounds)] })
  else
    (.error (.WindowNotFound "Main window not found"), app)

/-- Shared helper: on a non-negative finite product whose floor is below
2^31, the float-to-u32 cast does not saturate and the u32-to-i32 cast does
not wrap, so the result of `calculate_webview_bounds` is described exactly
by the floor of the product. -/
theorem calculate_webview_bounds_finite_eq (ww wh : ℕ) (s t : ℚ)
    (hs : 0 < s) (ht : 0 ≤ t) (hb : ⌊t * s⌋ < 2 ^ 31) :
    calculate_webview_bounds ww wh (F64.finite s) (F64.finite t) =
      { position := Position.Physical { x := 0, y := ⌊t * s⌋ },
        size := Size.Physical
          { width := ww,
            height := if ⌊t * s⌋.toNat < wh then wh - ⌊t * s⌋.toNat else 0 } } := by
  have h0 : (0 : ℚ) ≤ t * s := mul_nonneg ht hs.le
  have hf0 : 0 ≤ ⌊t * s⌋ := Int.floor_nonneg.mpr h0
  have htn : ⌊t * s⌋.toNat ≤ 2 ^ 32 - 1 := by omega
  have hlt : ⌊t * s⌋.toNat < 2 ^ 31 := by omega
  simp only [calculate_webview_bounds, F64.mul, f64_as_u32, u32_as_i32]
  rw [if_neg (not_lt.mpr h0), Nat.min_eq_left htn, if_pos hlt,
    Int.toNat_of_nonneg hf0]

end GeminiDesktop

namespace GeminiDesktop

/-- Claim C4 (amended): for u32 window dimensions, positive scale factor,
non-negative logical titlebar height, and a product whose floor stays below
2^31 (so that neither the saturating u32 cast nor the wrapping i32 cast
alters it), `calculate_webview_bounds` computes
titlebarPhys = floor(titlebar_height * scale_factor) by truncation, and
returns width = window_width, position = (0, titlebarPhys), and
height = window_height - titlebarPhys when window_height > titlebarPhys,
else 0 (so equality yields height 0). -/
theorem c4_bounds_truncation_and_clamp (ww wh : ℕ) (s t : ℚ)
    (hww : ww < 2 ^ 32) (hwh : wh < 2 ^ 32) (hs : 0 < s) (ht : 0 ≤ t)
    (hb : ⌊t * s⌋ < 2 ^ 31) :
    calculate_webview_bounds ww wh (F64.finite s) (F64.finite t) =
      { position := Position.Physical { x := 0, y := ⌊t * s⌋ },
        size := Size.Physical
          { width := ww,
            height := if ⌊t * s⌋.toNat < wh then wh - ⌊t * s⌋.toNat else 0 } } :=
  calculate_webview_bounds_finite_eq ww wh s t hs ht hb

/-- Witness for C4 at the spec test vector (1920, 1080, 1.0, 32.0). -/
theorem c4_bounds_truncation_and_clamp_witness :
    calculate_webview_bounds 1920 1080 (F64.finite 1) (F64.finite 32) =
      { position := Position.Physical { x := 0, y := 32 },
        size := Size.Physical { width := 1920, height := 1048 } } := by
  have h := c4_bounds_truncation_and_clamp 1920 1080 1 32
    (by norm_num) (by norm_num) (by norm_num) (by norm_num) (by norm_num)
  rw [h]
  norm_num
  decide

/-- Claim C5 (amended): for inputs whose product floor stays below 2^31,
the returned bounds satisfy positionY = floor(titlebar * scale) (the code
truncates, so floor rather than the claimed round), height =
max 0 (windowHeight - positionY), width = windowWidth and positionX = 0. -/
theorem c5_bounds_invariants (ww wh : ℕ) (s t : ℚ)
    (hww : ww < 2 ^ 32) (hwh : wh < 2 ^ 32) (hs : 0 < s) (ht : 0 ≤ t)
    (hb : ⌊t * s⌋ < 2 ^ 31) :
    (calculate_webview_bounds ww wh (F64.finite s) (F64.finite t)).posY = ⌊t * s⌋ ∧
      ((calculate_webview_bounds ww wh (F64.finite s) (F64.finite t)).height : ℤ) =
        max 0 ((wh : ℤ) - (calculate_webview_bounds ww wh (F64.finite s) (F64.finite t)).posY) ∧
      (calculate_webview_bounds ww wh (F64.finite s) (F64.finite t)).width = ww ∧
      (calculate_webview_bounds ww wh (F64.finite s) (F64.finite t)).posX = 0 := by
  have hf0 : 0 ≤ ⌊t * s⌋ := Int.floor_nonneg.mpr (mul_nonneg ht hs.le)
  rw [calculate_webview_bounds_finite_eq ww wh s t hs ht hb]
  refine ⟨rfl, ?_, rfl, rfl⟩
  simp only [Rect.height, Rect.posY]
  split_ifs with h <;> omega

/-- Witness for C5 at (1920, 1080, 1.0, 32.0). -/
theorem c5_bounds_invariants_witness :
    (calculate_webview_bounds 1920 1080 (F64.finite 1) (F64.finite 32)).posY = 32 ∧
      ((calculate_webview_bounds 1920 1080 (F64.finite 1) (F64.finite 32)).height : ℤ) =
        max 0 ((1080 : ℤ) - (calculate_webview_bounds 1920 1080 (F64.finite 1) (F64.finite 32)).posY) ∧
      (calculate_webview_bounds 1920 1080 (F64.finite 1) (F64.finite 32)).width = 1920 ∧
      (calculate_webview_bounds 1920 1080 (F64.finite 1) (F64.finite 32)).posX = 0 := by
  have h := c5_bounds_invariants 1920 1080 1 32
    (by norm_num) (by norm_num) (by norm_num) (by norm_num) (by norm_num)
  refine ⟨?_, h.2.1, h.2.2.1, h.2.2.2⟩
  rw [h.1]
  norm_num

/-- Counterexample to claim C5 as stated: at (100, 100, scale 1,
titlebar 3/4) the rounded product is 1, but the code truncates and
returns positionY = 0. -/
theorem c5_counterexample :
    round ((3 / 4 : ℚ) * (1 : ℚ)) = 1 ∧
      (calculate_webview_bounds 100 100 (F64.finite 1) (F64.finite (3 / 4))).posY = 0 ∧
      (0 : ℤ) ≠ 1 := by
  refine ⟨by rw [round_eq]; norm_num, ?_, by norm_num⟩
  simp only [calculate_webview_bounds, F64.mul, f64_as_u32, u32_as_i32, Rect.posY]
  norm_num

/-- Claim C6 (amended): whenever windowHeight is at most the truncated
physical titlebar height floor(titlebar * scale), the returned height is
0 (the code compares against the truncated value, not the rounded one). -/
theorem c6_height_zero (ww wh : ℕ) (s t : ℚ)
    (hwh : wh < 2 ^ 32) (hs : 0 < s) (ht : 0 ≤ t)
    (hle : (wh : ℤ) ≤ ⌊t * s⌋) :
    (calculate_webview_bounds ww wh (F64.finite s) (F64.finite t)).height = 0 := by
  have h0 : (0 : ℚ) ≤ t * s := mul_nonneg ht hs.le
  have hf0 : 0 ≤ ⌊t * s⌋ := Int.floor_nonneg.mpr h0
  simp only [calculate_webview_bounds, F64.mul, f64_as_u32, Rect.height]
  rw [if_neg (not_lt.mpr h0)]
  split_ifs with h
  · omega
  · rfl

/-- Witness for C6 at the spec boundary vector (800, 32, 1.0, 32.0). -/
theorem c6_height_zero_witness :
    (calculate_webview_bounds 800 32 (F64.finite 1) (F64.finite 32)).height = 0 :=
  c6_height_zero 800 32 1 32 (by norm_num) (by norm_num) (by norm_num)
    (by norm_num)

/-- Counterexample to claim C6 as stated: at (100, 11, scale 1,
titlebar 10.6) we have 11 ≤ round(10.6) = 11, yet the code truncates the
titlebar height to 10 and returns height 1, not 0. -/
theorem c6_counterexample :
    (11 : ℤ) ≤ round ((53 / 5 : ℚ) * (1 : ℚ)) ∧
      (calculate_webview_bounds 100 11 (F64.finite 1) (F64.finite (53 / 5))).height = 1 ∧
      (1 : ℕ) ≠ 0 := by
  refine ⟨by rw [round_eq]; norm_num, ?_, by norm_num⟩
  simp only [calculate_webview_bounds, F64.mul, f64_as_u32, Rect.height]
  norm_num
  decide

/-- Claim C9: when floor(titlebar * scale) lies in [2^31, 2^32), the cast
of the physical titlebar height from u32 to i32 wraps around, so the
returned positionY equals floor(titlebar * scale) - 2^32 and is
negative. -/
theorem c9_posY_wraps (ww wh : ℕ) (s t : ℚ)
    (h1 : 2 ^ 31 ≤ ⌊t * s⌋) (h2 : ⌊t * s⌋ < 2 ^ 32) :
    (calculate_webview_bounds ww wh (F64.finite s) (F64.finite t)).posY =
        ⌊t * s⌋ - 2 ^ 32 ∧
      (calculate_webview_bounds ww wh (F64.finite s) (F64.finite t)).posY < 0 := by
  have hf0 : 0 ≤ ⌊t * s⌋ := le_trans (by norm_num) h1
  have h0 : (0 : ℚ) ≤ t * s := Int.floor_nonneg.mp hf0
  simp only [calculate_webview_bounds, F64.mul, f64_as_u32, u32_as_i32, Rect.posY]
  rw [if_neg (not_lt.mpr h0)]
  split_ifs with h
  · omega
  · omega

/-- Witness for C9 at scale = 2^31, titlebar = 1. -/
theorem c9_posY_wraps_witness :
    (calculate_webview_bounds 100 100 (F64.finite (2 ^ 31))
        (F64.finite 1)).posY = -(2 ^ 31) ∧
      (calculate_webview_bounds 100 100 (F64.finite (2 ^ 31))
        (F64.finite 1)).posY < 0 := by
  have h := c9_posY_wraps 100 100 (2 ^ 31) 1 (by norm_num) (by norm_num)
  refine ⟨?_, h.2⟩
  rw [h.1]
  norm_num

/-- Claim C10: `calculate_webview_bounds` is total on the full `F64`
domain (the function always returns the rectangle determined by the
saturating cast of the product — the model of "never panics"), and the
float-to-u32 cast saturates: a NaN or negative product gives a physical
titlebar height of 0, while a product of 2^32 or more, or positive
infinity, gives u32::MAX = 2^32 - 1. -/
theorem c10_total_and_saturating (ww wh : ℕ) (s t : F64) :
    calculate_webview_bounds ww wh s t =
      { position := Position.Physical
          { x := 0, y := u32_as_i32 (f64_as_u32 (F64.mul t s)) },
        size := Size.Physical
          { width := ww,
            height := if wh > f64_as_u32 (F64.mul t s) then
                wh - f64_as_u32 (F64.mul t s)
              else 0 } } ∧
      (F64.mul t s = F64.nan → f64_as_u32 (F64.mul t s) = 0) ∧
      (∀ q : ℚ, F64.mul t s = F64.finite q → q < 0 →
        f64_as_u32 (F64.mul t s) = 0) ∧
      (∀ q : ℚ, F64.mul t s = F64.finite q → (2 ^ 32 : ℚ) ≤ q →
        f64_as_u32 (F64.mul t s) = 2 ^ 32 - 1) ∧
      (F64.mul t s = F64.inf false → f64_as_u32 (F64.mul t s) = 2 ^ 32 - 1) := by
  refine ⟨rfl, ?_, ?_, ?_, ?_⟩
  · intro h
    rw [h]
    rfl
  · intro q hq hneg
    rw [hq]
    simp only [f64_as_u32]
    rw [if_pos hneg]
  · intro q hq hge
    rw [hq]
    simp only [f64_as_u32]
    rw [if_neg (not_lt.mpr (le_trans (by norm_num) hge))]
    have hfl : (2 ^ 32 : ℤ) ≤ ⌊q⌋ := Int.le_floor.mpr (by exact_mod_cast hge)
    omega
  · intro h
    rw [h]
    rfl

/-- Witness for C10: NaN, negative, overflowing, and infinite products. -/
theorem c10_total_and_saturating_witness :
    f64_as_u32 (F64.mul F64.nan (F64.finite 1)) = 0 ∧
      f64_as_u32 (F64.mul (F64.finite (-3)) (F64.finite 1)) = 0 ∧
      f64_as_u32 (F64.mul (F64.finite (2 ^ 32)) (F64.finite 1)) = 2 ^ 32 - 1 ∧
      f64_as_u32 (F64.mul (F64.inf false) (F64.finite 1)) = 2 ^ 32 - 1 :=
  ⟨(c10_total_and_saturating 0 0 (F64.finite 1) F64.nan).2.1 rfl,
    (c10_total_and_saturating 0 0 (F64.finite 1) (F64.finite (-3))).2.2.1
      (-3 * 1) rfl (by norm_num),
    (c10_total_and_saturating 0 0 (F64.finite 1) (F64.finite (2 ^ 32))).2.2.2.1
      (2 ^ 32 * 1) rfl (by norm_num),
    (c10_total_and_saturating 0 0 (F64.finite 1) (F64.inf false)).2.2.2.2 rfl⟩

/-- Counterexample to claim C4 as stated: at window 100x100,
scaleFactor = 2^31, titlebarHeightLogical = 1, the floor of the product is
2^31, but the returned position y is -2^31 (the u32 value wraps in the cast
to i32), not the claimed titlebarPhys. -/
theorem c4_counterexample :
    ⌊(1 : ℚ) * (2 ^ 31 : ℚ)⌋ = 2 ^ 31 ∧
      (calculate_webview_bounds 100 100 (F64.finite (2 ^ 31))
          (F64.finite 1)).posY = -(2 ^ 31) ∧
      (-(2 ^ 31) : ℤ) ≠ 2 ^ 31 := by
  refine ⟨by norm_num, ?_, by norm_num⟩
  simp only [calculate_webview_bounds, F64.mul, f64_as_u32, u32_as_i32, Rect.posY]
  norm_num

/-- Shared helper: converting a small code point to a character and back
is the identity. -/
theorem char_toNat_ofNat {b : ℕ} (h : b < 55296) : (Char.ofNat b).toNat = b := by
  have hv : b.isValidChar := Or.inl h
  simp [Char.ofNat, hv, Char.ofNatAux, Char.toNat, UInt32.toNat]

/-- Shared helper: a string produced by a successful `headerValueToStr`
consists of visible-ASCII characters and is therefore a valid header
value. -/
theorem headerValueToStr_valid (v : List ℕ) (cs : String)
    (h : headerValueToStr v = some cs) : validHeaderValueStr cs = true := by
  unfold headerValueToStr at h
  split at h
  case isTrue hall =>
    cases h
    unfold validHeaderValueStr
    rw [show ((v.map Char.ofNat).asString).toList = v.map Char.ofNat from rfl,
      List.all_eq_true]
    rw [List.all_eq_true] at hall
    intro c hc
    rcases List.mem_map.mp hc with ⟨b, hb, rfl⟩
    have hpb := hall b hb
    simp only [Bool.or_eq_true, Bool.and_eq_true, decide_eq_true_eq,
      beq_iff_eq] at hpb
    have hlt : b < 55296 := by omega
    simp only [char_toNat_ofNat hlt, Bool.or_eq_true, Bool.and_eq_true,
      decide_eq_true_eq, bne_iff_ne, ne_eq, beq_iff_eq]
    omega
  case isFalse => cases h

/-- Shared helper: a successful response build yields exactly the record
with the given status, the single content-type header, and the body. -/
theorem buildResponse_eq_some (st : ℕ) (ct : String) (b : List ℕ)
    (r : ProxyResponse) (h : buildResponse st ct b = some r) :
    r = { status := st, headers := [("content-type", ct)], body := b } := by
  unfold buildResponse at h
  split at h
  · exact (Option.some.inj h).symm
  · cases h

/-- Shared helper: a successful response build implies that the status
code and the content-type value were valid. -/
theorem buildResponse_valid (st : ℕ) (ct : String) (b : List ℕ)
    (r : ProxyResponse) (h : buildResponse st ct b = some r) :
    validStatus st = true ∧ validHeaderValueStr ct = true := by
  unfold buildResponse at h
  split at h
  case isTrue hc => exact Bool.and_eq_true _ _ |>.mp hc
  case isFalse => cases h

/-- Shared helper: for a valid status code, `error_response` does not
panic and returns the plain-text error response. -/
theorem error_response_eq (st : ℕ) (m : String) (h : validStatus st = true) :
    error_response st m =
      some { status := st, headers := [("content-type", "text/plain")],
             body := strBytes m } := by
  unfold error_response buildResponse
  rw [if_pos]
  rw [h]
  decide

/-- Shared helper: on a success outcome with a valid upstream status, the
handler returns the upstream status and body with the content-type
computed from the upstream header (defaulting to text/html). -/
theorem handle_success_eq (resp : UpstreamResponse)
    (h : validStatus resp.status = true) :
    handle_proxy_request (.success resp) =
      some { status := resp.status,
             headers := [("content-type",
               ((headerGet resp.headers "content-type").bind
                 headerValueToStr).getD "text/html")],
             body := resp.body } := by
  have hct : validHeaderValueStr
      (((headerGet resp.headers "content-type").bind
        headerValueToStr).getD "text/html") = true := by
    cases hx : (headerGet resp.headers "content-type").bind headerValueToStr with
    | none => decide
    | some s =>
      rw [Option.getD_some]
      rcases Option.bind_eq_some.mp hx with ⟨v, _, hv2⟩
      exact headerValueToStr_valid v s hv2
  have hb : buildResponse resp.status
      (((headerGet resp.headers "content-type").bind
        headerValueToStr).getD "text/html") resp.body =
      some { status := resp.status,
             headers := [("content-type",
               ((headerGet resp.headers "content-type").bind
                 headerValueToStr).getD "text/html")],
             body := resp.body } := by
    unfold buildResponse
    rw [h, hct]
    rfl
  simp only [handle_proxy_request]
  rw [hb]

/-- Shared helper: every response the handler can return carries exactly
one header, named content-type. -/
theorem handle_headers_single (o : FetchOutcome) (r : ProxyResponse)
    (h : handle_proxy_request o = some r) :
    ∃ ct, r.headers = [("content-type", ct)] := by
  cases o with
  | clientError =>
    have hb : buildResponse 500 "text/plain"
        (strBytes "Internal proxy error") = some r := h
    exact ⟨"text/plain", by rw [buildResponse_eq_some _ _ _ r hb]⟩
  | sendError =>
    have hb : buildResponse 502 "text/plain"
        (strBytes "Failed to fetch from Gemini") = some r := h
    exact ⟨"text/plain", by rw [buildResponse_eq_some _ _ _ r hb]⟩
  | bodyReadError st hs =>
    have hb : buildResponse 500 "text/plain"
        (strBytes "Failed to read response") = some r := h
    exact ⟨"text/plain", by rw [buildResponse_eq_some _ _ _ r hb]⟩
  | success resp =>
    simp only [handle_proxy_request] at h
    cases hb : buildResponse resp.status
        (((headerGet resp.headers "content-type").bind
          headerValueToStr).getD "text/html") resp.body with
    | some r0 =>
      rw [hb] at h
      have hr := Option.some.inj h
      subst hr
      exact ⟨_, by rw [buildResponse_eq_some _ _ _ _ hb]⟩
    | none =>
      rw [hb] at h
      have hb2 : buildResponse 500 "text/plain"
          (strBytes "Response build error") = some r := h
      exact ⟨"text/plain", by rw [buildResponse_eq_some _ _ _ r hb2]⟩

/-- Claim C1: for every outcome of the upstream fetch (any status, any
header set, any body), every header of the response returned by
`handle_proxy_request` is named content-type (the allowlist of one), so
none of the names in HEADERS_TO_STRIP — x-frame-options,
content-security-policy, x-content-type-options — ever appears in the
output. -/
theorem c1_header_allowlist (o : FetchOutcome) (r : ProxyResponse)
    (h : handle_proxy_request o = some r) :
    (∀ p ∈ r.headers, p.1 = "content-type") ∧
      ∀ n ∈ HEADERS_TO_STRIP, n ∉ r.headers.map Prod.fst := by
  rcases handle_headers_single o r h with ⟨ct, hct⟩
  rw [hct]
  constructor
  · intro p hp
    rw [List.mem_singleton.mp hp]
  · intro n hn
    rw [show ([("content-type", ct)] : List (String × String)).map Prod.fst =
      ["content-type"] from rfl]
    simp only [HEADERS_TO_STRIP, List.mem_cons, List.not_mem_nil, or_false] at hn
    rcases hn with rfl | rfl | rfl <;> decide

/-- Witness for C1: a mock upstream success response that includes all
three stripped headers; none of them appears in the proxied response. -/
theorem c1_header_allowlist_witness :
    "x-frame-options" ∉
        (ProxyResponse.mk 200 [("content-type", "text/html")] [1]).headers.map
          Prod.fst ∧
      "content-security-policy" ∉
        (ProxyResponse.mk 200 [("content-type", "text/html")] [1]).headers.map
          Prod.fst ∧
      "x-content-type-options" ∉
        (ProxyResponse.mk 200 [("content-type", "text/html")] [1]).headers.map
          Prod.fst := by
  have h := (c1_header_allowlist
    (.success ⟨200,
      [("x-frame-options", [68]), ("content-security-policy", [68]),
        ("x-content-type-options", [68])], [1]⟩)
    ⟨200, [("content-type", "text/html")], [1]⟩ (by decide)).2
  exact ⟨h _ (by decide), h _ (by decide), h _ (by decide)⟩

/-- Claim C2 (amended): on a successful upstream fetch (upstream status
codes are always in 100..=999), the proxied response preserves the
upstream status and body exactly; the content-type header is preserved
exactly when the upstream sent one whose value is a valid visible-ASCII
string, and defaults to text/html when the header is absent or when its
value cannot be converted to a string. -/
theorem c2_success_preserves (resp : UpstreamResponse)
    (h : validStatus resp.status = true) :
    (∀ v cs, headerGet resp.headers "content-type" = some v →
      headerValueToStr v = some cs →
      handle_proxy_request (.success resp) =
        some { status := resp.status, headers := [("content-type", cs)],
               body := resp.body }) ∧
      (headerGet resp.headers "content-type" = none →
        handle_proxy_request (.success resp) =
          some { status := resp.status,
                 headers := [("content-type", "text/html")],
                 body := resp.body }) ∧
      (∀ v, headerGet resp.headers "content-type" = some v →
        headerValueToStr v = none →
        handle_proxy_request (.success resp) =
          some { status := resp.status,
                 headers := [("content-type", "text/html")],
                 body := resp.body }) := by
  refine ⟨?_, ?_, ?_⟩
  · intro v cs hv hcs
    rw [handle_success_eq resp h, hv]
    simp [hcs]
  · intro hv
    rw [handle_success_eq resp h, hv]
    rfl
  · intro v hv hcs
    rw [handle_success_eq resp h, hv]
    simp [hcs]

/-- Witness for C2: an upstream 200 response with content-type byte 106
("j") and body [7] is forwarded verbatim. -/
theorem c2_success_preserves_witness :
    handle_proxy_request
        (.success ⟨200, [("content-type", [106])], [7]⟩) =
      some { status := 200, headers := [("content-type", "j")],
             body := [7] } :=
  (c2_success_preserves ⟨200, [("content-type", [106])], [7]⟩
      (by decide)).1 [106] "j" (by decide) (by decide)

/-- Counterexample to claim C2 as stated: the upstream sent a content-type
header (with the single byte 200, which is a legal HTTP header value but
not visible ASCII), yet the proxied response carries the default
text/html, not the upstream value. -/
theorem c2_counterexample :
    handle_proxy_request
        (.success ⟨200, [("content-type", [200])], [1, 2, 3]⟩) =
        some { status := 200, headers := [("content-type", "text/html")],
               body := [1, 2, 3] } ∧
      headerGet [("content-type", [200])] "content-type" = some [200] ∧
      strBytes "text/html" ≠ [200] := by
  refine ⟨?_, by decide, by decide⟩
  decide

/-- Claim C3: each failure kind maps to its fixed error response — client
construction failure to 500, request failure to 502, body-read failure to
500, response-construction failure (an out-of-range status is the only
way the build can fail, since the computed content-type value is always
valid) to 500 — and each error body is the non-empty plain-text
message. -/
theorem c3_error_mapping :
    handle_proxy_request .clientError =
        some { status := 500, headers := [("content-type", "text/plain")],
               body := strBytes "Internal proxy error" } ∧
      handle_proxy_request .sendError =
        some { status := 502, headers := [("content-type", "text/plain")],
               body := strBytes "Failed to fetch from Gemini" } ∧
      (∀ (st : ℕ) (hs : List (String × List ℕ)),
        handle_proxy_request (.bodyReadError st hs) =
          some { status := 500, headers := [("content-type", "text/plain")],
                 body := strBytes "Failed to read response" }) ∧
      (∀ resp : UpstreamResponse, validStatus resp.status = false →
        handle_proxy_request (.success resp) =
          some { status := 500, headers := [("content-type", "text/plain")],
                 body := strBytes "Response build error" }) ∧
      strBytes "Internal proxy error" ≠ [] ∧
      strBytes "Failed to fetch from Gemini" ≠ [] ∧
      strBytes "Failed to read response" ≠ [] ∧
      strBytes "Response build error" ≠ [] := by
  refine ⟨by decide, by decide,
    fun st hs => error_response_eq 500 "Failed to read response" (by decide),
    ?_, by decide, by decide, by decide, by decide⟩
  intro resp hfalse
  simp only [handle_proxy_request]
  have hb : buildResponse resp.status
      (((headerGet resp.headers "content-type").bind
        headerValueToStr).getD "text/html") resp.body = none := by
    unfold buildResponse
    rw [hfalse]
    rfl
  rw [hb]
  exact error_response_eq 500 _ (by decide)

/-- Witness for C3: the body-read failure and the build failure (upstream
status 0) both produce the fixed 500 plain-text responses. -/
theorem c3_error_mapping_witness :
    handle_proxy_request (.bodyReadError 200 []) =
        some { status := 500, headers := [("content-type", "text/plain")],
               body := strBytes "Failed to read response" } ∧
      handle_proxy_request (.success ⟨0, [], []⟩) =
        some { status := 500, headers := [("content-type", "text/plain")],
               body := strBytes "Response build error" } :=
  ⟨c3_error_mapping.2.2.1 200 [],
    c3_error_mapping.2.2.2.1 ⟨0, [], []⟩ (by decide)⟩

/-- Claim C7: the handler never panics — for every fetch outcome it
returns a response (`isSome`, never `none`), that response is
well-formed (valid status code and valid header values), and the unwrap
inside `error_response` cannot fail for the 500/502 text/plain responses
it is called with. -/
theorem c7_no_panic :
    (∀ o : FetchOutcome, (handle_proxy_request o).isSome = true) ∧
      (∀ (o : FetchOutcome) (r : ProxyResponse),
        handle_proxy_request o = some r →
        validStatus r.status = true ∧
          (r.headers.all fun p => validHeaderValueStr p.2) = true) ∧
      (∀ m : String, (error_response 500 m).isSome = true) ∧
      (∀ m : String, (error_response 502 m).isSome = true) := by
  have herr : ∀ (st : ℕ) (m : String), validStatus st = true →
      (error_response st m).isSome = true := by
    intro st m hst
    rw [error_response_eq st m hst]
    rfl
  have hwf : ∀ (o : FetchOutcome) (r : ProxyResponse),
      handle_proxy_request o = some r →
      validStatus r.status = true ∧
        (r.headers.all fun p => validHeaderValueStr p.2) = true := by
    intro o r h
    have shape : ∀ (st : ℕ) (ct : String) (b : List ℕ),
        buildResponse st ct b = some r →
        validStatus r.status = true ∧
          (r.headers.all fun p => validHeaderValueStr p.2) = true := by
      intro st ct b hb
      obtain ⟨hst, hct⟩ := buildResponse_valid st ct b r hb
      rw [buildResponse_eq_some st ct b r hb]
      exact ⟨hst, by simp [hct]⟩
    cases o with
    | clientError =>
      exact shape 500 "text/plain" (strBytes "Internal proxy error") h
    | sendError =>
      exact shape 502 "text/plain" (strBytes "Failed to fetch from Gemini") h
    | bodyReadError st hs =>
      exact shape 500 "text/plain" (strBytes "Failed to read response") h
    | success resp =>
      simp only [handle_proxy_request] at h
      cases hb : buildResponse resp.status
          (((headerGet resp.headers "content-type").bind
            headerValueToStr).getD "text/html") resp.body with
      | some r0 =>
        rw [hb] at h
        cases h
        exact shape _ _ _ hb
      | none =>
        rw [hb] at h
        exact shape 500 "text/plain" (strBytes "Response build error") h
  refine ⟨?_, hwf, fun m => herr 500 m (by decide),
    fun m => herr 502 m (by decide)⟩
  intro o
  cases o with
  | clientError => exact herr 500 _ (by decide)
  | sendError => exact herr 502 _ (by decide)
  | bodyReadError st hs => exact herr 500 _ (by decide)
  | success resp =>
    simp only [handle_proxy_request]
    cases hb : buildResponse resp.status
        (((headerGet resp.headers "content-type").bind
          headerValueToStr).getD "text/html") resp.body with
    | some r0 => rfl
    | none => exact herr 500 _ (by decide)

/-- Witness for C7 at concrete outcomes and messages. -/
theorem c7_no_panic_witness :
    (handle_proxy_request .clientError).isSome = true ∧
      (validStatus 500 = true ∧
        (([("content-type", "text/plain")] : List (String × String)).all
          fun p => validHeaderValueStr p.2) = true) ∧
      (error_response 500 "boom").isSome = true ∧
      (error_response 502 "boom").isSome = true :=
  ⟨c7_no_panic.1 .clientError,
    c7_no_panic.2.1 .clientError
      ⟨500, [("content-type", "text/plain")], strBytes "Internal proxy error"⟩
      (by decide),
    c7_no_panic.2.2.1 "boom", c7_no_panic.2.2.2 "boom"⟩

/-- Shared helper: when the main window resolves and the Gemini webview
already exists, `create_gemini_webview` returns Ok and leaves the state
untouched (the early-return branch). -/
theorem create_gemini_webview_existing (app : AppState)
    (hmem : MAIN_WINDOW_LABEL ∈ app.windows)
    (hany : (app.webviews.any fun v => v.1 = GEMINI_WEBVIEW_LABEL) = true) :
    create_gemini_webview app = (Except.ok (), app) := by
  unfold create_gemini_webview
  rw [if_pos hmem, if_pos hany]

/-- Shared helper: after any successful call of `create_gemini_webview`,
the main window still resolves and a webview with the Gemini label
exists. -/
theorem create_gemini_webview_ok_state (app : AppState)
    (h : (create_gemini_webview app).1 = Except.ok ()) :
    MAIN_WINDOW_LABEL ∈ (create_gemini_webview app).2.windows ∧
      ((create_gemini_webview app).2.webviews.any fun v =>
        v.1 = GEMINI_WEBVIEW_LABEL) = true := by
  by_cases hmem : MAIN_WINDOW_LABEL ∈ app.windows
  · by_cases hany :
      (app.webviews.any fun v => v.1 = GEMINI_WEBVIEW_LABEL) = true
    · rw [create_gemini_webview_existing app hmem hany]
      exact ⟨hmem, hany⟩
    · unfold create_gemini_webview at h ⊢
      rw [if_pos hmem, if_neg hany] at h ⊢
      cases hsf : app.scaleFactorRes with
      | error e => simp [hsf] at h
      | ok sf =>
        simp only [hsf] at h ⊢
        cases hsz : app.innerSizeRes with
        | error e => simp [hsz] at h
        | ok wh =>
          obtain ⟨w, hgt⟩ := wh
          simp only [hsz] at h ⊢
          rw [show parse_url GEMINI_URL = Except.ok GEMINI_URL from rfl] at h ⊢
          cases hadd : app.addChildRes with
          | some e => simp [hadd] at h
          | none =>
            simp only [hadd] at h ⊢
            refine ⟨hmem, ?_⟩
            simp [GEMINI_WEBVIEW_LABEL]
  · unfold create_gemini_webview at h
    rw [if_neg hmem] at h
    simp at h

/-- Claim C8: `create_gemini_webview` is idempotent — if the main window
resolves and a webview with the Gemini label already exists, the call
returns Ok without changing the state at all; consequently, after any
successful call, a second invocation succeeds and leaves the state of the
first call unchanged (no duplicate view is created). -/
theorem c8_create_idempotent :
    (∀ app : AppState, MAIN_WINDOW_LABEL ∈ app.windows →
      (app.webviews.any fun v => v.1 = GEMINI_WEBVIEW_LABEL) = true →
      create_gemini_webview app = (Except.ok (), app)) ∧
      ∀ app : AppState, (create_gemini_webview app).1 = Except.ok () →
        create_gemini_webview (create_gemini_webview app).2 =
          (Except.ok (), (create_gemini_webview app).2) := by
  refine ⟨create_gemini_webview_existing, ?_⟩
  intro app h
  obtain ⟨hmem, hany⟩ := create_gemini_webview_ok_state app h
  exact create_gemini_webview_existing _ hmem hany

/-- Witness for C8: a state with a live main window and an existing
Gemini webview is returned unchanged with Ok. -/
theorem c8_create_idempotent_witness :
    create_gemini_webview
        { windows := ["main"],
          webviews := [("gemini-webview",
            ⟨Position.Physical ⟨0, 0⟩, Size.Physical ⟨0, 0⟩⟩)],
          scaleFactorRes := Except.ok (F64.finite 1),
          innerSizeRes := Except.ok (800, 600),
          addChildRes := none } =
      (Except.ok (),
        { windows := ["main"],
          webviews := [("gemini-webview",
            ⟨Position.Physical ⟨0, 0⟩, Size.Physical ⟨0, 0⟩⟩)],
          scaleFactorRes := Except.ok (F64.finite 1),
          innerSizeRes := Except.ok (800, 600),
          addChildRes := none }) :=
  c8_create_idempotent.1
    { windows := ["main"],
      webviews := [("gemini-webview",
        ⟨Position.Physical ⟨0, 0⟩, Size.Physical ⟨0, 0⟩⟩)],
      scaleFactorRes := Except.ok (F64.finite 1),
      innerSizeRes := Except.ok (800, 600),
      addChildRes := none }
    (by decide) (by decide)

end GeminiDesktop
